import Mathlib

/-!
# Boot-time virtual-memory seeding of the `clust` kernel skeleton

A shallow embedding of `vm.c` (the two global tables, `vm_seed_trans_table`,
`vm_seed_page_map`, `vm_seed`) and of `boot()` in `test.c`.

* The two global arrays are lists of entry values held in a `Machine`.
* Every call of `vm_seed` is recorded, with its three arguments, in the ghost
  field `calls` of the machine; the C code has no such log, it only serves to
  state which requests a function issues and in which order.
* `boot()` never returns (it ends in `while (1) {}`), so it is embedded as a
  step function over a program counter and run for a number of steps.
-/

namespace Clust

/-! ## Data model (`vm.c`, lines 4-6) -/

/-- Number of entries of `uint32_t trans_table[0x1000]`. -/
def TRANS_TABLE_ENTRIES : Nat := 0x1000

/-- Number of entries of `uint32_t page_map[0x8000]`. -/
def PAGE_MAP_ENTRIES : Nat := 0x8000

/-- The value of `sizeof(uint32_t)`: four bytes. -/
def SIZEOF_UINT32 : Nat := 4

/-- Conversion of a value to `uint32_t` (what happens to `sizeof(...)` when it
is passed for the `uint32_t length` parameter of `vm_seed`). -/
def to_uint32 (n : Nat) : Nat := n % 2 ^ 32

/-- The value of `sizeof(trans_table)`. -/
def sizeof_trans_table : Nat := TRANS_TABLE_ENTRIES * SIZEOF_UINT32

/-- The value of `sizeof(page_map)`. -/
def sizeof_page_map : Nat := PAGE_MAP_ENTRIES * SIZEOF_UINT32

/-- One call of `vm_seed(v_addr, p_addr, length)`, as recorded in the log. -/
structure SeedCall where
  v_addr : Nat
  p_addr : Nat
  length : Nat
deriving DecidableEq

/-- The mutable globals of `vm.c`, together with the log of `vm_seed` calls. -/
structure Machine where
  trans_table : List Nat
  page_map : List Nat
  calls : List SeedCall
deriving DecidableEq

/-- What the program text does not fix: the addresses at which the linker
places the two arrays, and the values of the external variables `reset` and
`reset_length` of `test.c`. -/
structure Env where
  trans_table_addr : Nat
  page_map_addr : Nat
  reset : Nat
  reset_length : Nat
deriving DecidableEq

/-- The globals as the C runtime hands them over: both arrays have no
initialiser, so every entry is zero; nothing has been called yet. -/
def boot_init : Machine :=
  { trans_table := List.replicate TRANS_TABLE_ENTRIES 0
    page_map := List.replicate PAGE_MAP_ENTRIES 0
    calls := [] }

/-! ## Operations of `vm.c` -/

/-- `void vm_seed(uint32_t *v_addr, uint32_t *p_addr, uint32_t length) { 1; }`:
the body is the expression statement `1;`, which has no effect.  The call is
entered in the log; neither table is touched and nothing is returned. -/
def vm_seed (v_addr p_addr length : Nat) (m : Machine) : Machine :=
  { m with calls := m.calls ++ [SeedCall.mk v_addr p_addr length] }

/-- `void vm_seed_trans_table(void)`:
`vm_seed(trans_table, trans_table, sizeof(trans_table));`. -/
def vm_seed_trans_table (env : Env) (m : Machine) : Machine :=
  vm_seed env.trans_table_addr env.trans_table_addr (to_uint32 sizeof_trans_table) m

/-- `void vm_seed_page_map(void)`:
`vm_seed(page_map, page_map, sizeof(page_map));`. -/
def vm_seed_page_map (env : Env) (m : Machine) : Machine :=
  vm_seed env.page_map_addr env.page_map_addr (to_uint32 sizeof_page_map) m

/-! ## `boot()` of `test.c` -/

/-- Program points of `boot()`: before each of its three statements (lines 49,
50 and 52 of `test.c`) and inside the closing `while (1) {}` (line 54). -/
inductive BootPc where
  | line49
  | line50
  | line52
  | spin
deriving DecidableEq

/-- One step of `boot()`. -/
def boot_step (env : Env) : BootPc × Machine → BootPc × Machine
  | (BootPc.line49, m) => (BootPc.line50, vm_seed_trans_table env m)
  | (BootPc.line50, m) => (BootPc.line52, vm_seed_page_map env m)
  | (BootPc.line52, m) => (BootPc.spin, vm_seed env.reset env.reset env.reset_length m)
  | (BootPc.spin, m) => (BootPc.spin, m)

/-- `void boot()`: the function never returns, so its meaning is the
configuration it is in after `n` steps when entered with globals `m`. -/
def boot (env : Env) : Nat → Machine → BootPc × Machine
  | 0, m => (BootPc.line49, m)
  | n + 1, m => boot_step env (boot env n m)

/-! ## Reading the tables -/

/-- Modelled from the spec: the page size. The sources name no page size; the
mapping granularity of the design is the 4096-byte page of the target. -/
def page_size : Nat := 4096

/-- Modelled from the spec: the size of the "coarse virtual-address region"
described by one translation-table entry, the 32-bit address space divided
evenly over the `0x1000` entries of `trans_table`. -/
def region_size : Nat := 2 ^ 32 / TRANS_TABLE_ENTRIES

/-- Modelled from the spec: "index = region number". -/
def region_of (a : Nat) : Nat := a / region_size

/-- The `trans_table` entry covering address `a` (zero past the end of the
table, i.e. unmapped). -/
def covering_entry (m : Machine) (a : Nat) : Nat :=
  m.trans_table.getD (region_of a) 0

/-- Modelled from the spec: the two-level lookup of an address, which no source
file contains. A zero first-level entry is the unmapped value; otherwise the
entry designates a page-map segment and the second level decides. The spec
leaves the descriptor bit layout open, so the second-level walk is the
parameter `walk`, given the first-level entry, the page map and the address. -/
def lookup (walk : Nat → List Nat → Nat → Option Nat) (m : Machine) (a : Nat) : Option Nat :=
  if covering_entry m a = 0 then none else walk (covering_entry m a) m.page_map a

/-- The Translation Table invariant of the data model. `seg_of d` is the index
in `page_map` of the first entry of the segment that a first-level entry `d`
designates and `seg_entries` is the number of entries of a segment (both are
left open by the spec). The table has its `0x1000` entries; every entry is
zero or designates a segment lying inside `page_map`; of any two different
slots, one holds zero or the two designate different segments. -/
def TransTableInv (seg_of : Nat → Nat) (seg_entries : Nat) (m : Machine) : Prop :=
  m.trans_table.length = TRANS_TABLE_ENTRIES ∧
  (∀ d ∈ m.trans_table, d = 0 ∨ seg_of d + seg_entries ≤ m.page_map.length) ∧
  (∀ i < m.trans_table.length, ∀ j < m.trans_table.length,
    i = j ∨ m.trans_table.getD i 0 = 0 ∨ m.trans_table.getD j 0 = 0 ∨
    seg_of (m.trans_table.getD i 0) ≠ seg_of (m.trans_table.getD j 0))

instance (seg_of : Nat → Nat) (seg_entries : Nat) (m : Machine) :
    Decidable (TransTableInv seg_of seg_entries m) := by
  unfold TransTableInv
  refine @instDecidableAnd _ _ ?_ (@instDecidableAnd _ _ ?_ ?_) <;> infer_instance

/-! ## What a caller sees of a request -/

/-- A request is invalid when its length is zero or not a multiple of the page
size, or when its virtual start is not page-aligned. -/
def invalid_request (v_addr length : Nat) : Prop :=
  length = 0 ∨ length % page_size ≠ 0 ∨ v_addr % page_size ≠ 0

instance (v_addr length : Nat) : Decidable (invalid_request v_addr length) := by
  unfold invalid_request; infer_instance

/-- A request is valid when it is not invalid. -/
def valid_request (v_addr length : Nat) : Prop :=
  0 < length ∧ length % page_size = 0 ∧ v_addr % page_size = 0

instance (v_addr length : Nat) : Decidable (valid_request v_addr length) := by
  unfold valid_request; infer_instance

/-- Everything the caller of `vm_seed` can inspect once the call has returned.
The function returns `void` and the program has no status variable, so this is
the contents of the two global tables. -/
def observable (m : Machine) : List Nat × List Nat :=
  (m.trans_table, m.page_map)

/-! ## Auxiliary facts -/

theorem boot_step_tables (env : Env) (c : BootPc × Machine) :
    (boot_step env c).2.trans_table = c.2.trans_table ∧
    (boot_step env c).2.page_map = c.2.page_map := by
  obtain ⟨pc, m⟩ := c
  cases pc <;> exact ⟨rfl, rfl⟩

theorem boot_tables (env : Env) (n : Nat) (m : Machine) :
    (boot env n m).2.trans_table = m.trans_table ∧
    (boot env n m).2.page_map = m.page_map := by
  induction n with
  | zero => exact ⟨rfl, rfl⟩
  | succ k ih =>
    have h := boot_step_tables env (boot env k m)
    exact ⟨h.1.trans ih.1, h.2.trans ih.2⟩

theorem boot_reaches_spin (env : Env) (n : Nat) (m : Machine) :
    boot env (3 + n) m =
      (BootPc.spin, vm_seed env.reset env.reset env.reset_length
        (vm_seed_page_map env (vm_seed_trans_table env m))) := by
  induction n with
  | zero => rfl
  | succ k ih =>
    show boot_step env (boot env (3 + k) m) = _
    rw [ih]; rfl

theorem boot_init_inv (seg_of : Nat → Nat) (seg_entries : Nat) (m : Machine)
    (htt : m.trans_table = boot_init.trans_table) :
    TransTableInv seg_of seg_entries m := by
  have hz : ∀ i, m.trans_table.getD i 0 = 0 := by
    intro i
    rw [htt]
    simp only [boot_init, List.getD_eq_getElem?_getD, List.getElem?_replicate]
    split <;> rfl
  refine ⟨by rw [htt]; simp [boot_init], ?_, ?_⟩
  · intro d hd
    rw [htt] at hd
    exact Or.inl (List.eq_of_mem_replicate hd)
  · intro i _ j _
    exact Or.inr (Or.inl (hz i))

/-! ## The claims -/

/-- C1 (the code at the failing input): the region `(0x8000, 0x8000, 4096)`
has a length that is a positive multiple of the page size and contains the
address `0x8000`, yet after `vm_seed(0x8000, 0x8000, 4096)` on the
zero-initialised tables the `trans_table` entry covering `0x8000` is still the
unmapped value zero, both tables are as they were, and the lookup of `0x8000`
yields nothing, whatever the second-level walk. -/
theorem vm_seed_zero_tables_stay_unmapped :
    (0 < 4096 ∧ 4096 % page_size = 0 ∧ 0x8000 ≤ 0x8000 ∧ 0x8000 < 0x8000 + 4096) ∧
    covering_entry (vm_seed 0x8000 0x8000 4096 boot_init) 0x8000 = 0 ∧
    observable (vm_seed 0x8000 0x8000 4096 boot_init) = observable boot_init ∧
    ∀ walk : Nat → List Nat → Nat → Option Nat,
      lookup walk (vm_seed 0x8000 0x8000 4096 boot_init) 0x8000 = none := by
  have h0 : covering_entry (vm_seed 0x8000 0x8000 4096 boot_init) 0x8000 = 0 := by decide
  refine ⟨by decide, h0, rfl, ?_⟩
  intro walk
  unfold lookup
  rw [if_pos h0]

/-- C2: `vm_seed` is idempotent on the tables. From every state and for every
region `(v, p, length)`, two calls in a row leave `trans_table` and `page_map`
with exactly the contents one call leaves them with. `vm_seed` is a total
function with no failure outcome: the second call returns like the first, and
the log then holds both calls. -/
theorem vm_seed_idempotent (v p length : Nat) (m : Machine) :
    (vm_seed v p length (vm_seed v p length m)).trans_table =
      (vm_seed v p length m).trans_table ∧
    (vm_seed v p length (vm_seed v p length m)).page_map =
      (vm_seed v p length m).page_map ∧
    (vm_seed v p length (vm_seed v p length m)).calls =
      m.calls ++ [SeedCall.mk v p length, SeedCall.mk v p length] := by
  refine ⟨rfl, rfl, ?_⟩
  simp [vm_seed]

/-- C3: `vm_seed_trans_table` is one call of `vm_seed` whose virtual and
physical start are both the address of `trans_table` and whose length is the
byte size of the table, `0x1000 * 4 = 16384`; it adds exactly this one request
to the log. -/
theorem vm_seed_trans_table_one_identity_request (env : Env) (m : Machine) :
    vm_seed_trans_table env m =
      vm_seed env.trans_table_addr env.trans_table_addr 16384 m ∧
    (vm_seed_trans_table env m).calls =
      m.calls ++ [SeedCall.mk env.trans_table_addr env.trans_table_addr 16384] ∧
    sizeof_trans_table = 0x1000 * 4 ∧ sizeof_trans_table = 16384 :=
  ⟨rfl, rfl, rfl, rfl⟩

/-- C4: `vm_seed_page_map` is one call of `vm_seed` whose virtual and physical
start are both the address of `page_map` and whose length is the byte size of
the page map, `0x8000 * 4 = 131072`; it adds exactly this one request to the
log. -/
theorem vm_seed_page_map_one_identity_request (env : Env) (m : Machine) :
    vm_seed_page_map env m =
      vm_seed env.page_map_addr env.page_map_addr 131072 m ∧
    (vm_seed_page_map env m).calls =
      m.calls ++ [SeedCall.mk env.page_map_addr env.page_map_addr 131072] ∧
    sizeof_page_map = 0x8000 * 4 ∧ sizeof_page_map = 131072 :=
  ⟨rfl, rfl, rfl, rfl⟩

/-- C5 (the code at the failing input): entered with the zero-initialised
globals, `boot()` has, from its third step on and for ever after, issued
exactly three requests: the translation table, the page map and the region
`(reset, reset, reset_length)`. Each has its virtual start equal to its
physical start, but there is no fourth request, for the idle text region. -/
theorem boot_issues_three_requests (env : Env) (n : Nat) :
    (boot env (3 + n) boot_init).2.calls =
      [ SeedCall.mk env.trans_table_addr env.trans_table_addr 16384,
        SeedCall.mk env.page_map_addr env.page_map_addr 131072,
        SeedCall.mk env.reset env.reset env.reset_length ] ∧
    (boot env (3 + n) boot_init).2.calls.length = 3 ∧
    ∀ r ∈ (boot env (3 + n) boot_init).2.calls, r.v_addr = r.p_addr := by
  rw [boot_reaches_spin]
  refine ⟨rfl, rfl, ?_⟩
  intro r hr
  have hmem : r ∈ [ SeedCall.mk env.trans_table_addr env.trans_table_addr 16384,
      SeedCall.mk env.page_map_addr env.page_map_addr 131072,
      SeedCall.mk env.reset env.reset env.reset_length ] := hr
  simp only [List.mem_cons, List.mem_singleton, List.not_mem_nil, or_false] at hmem
  rcases hmem with h | h | h <;> rw [h]

/-- C6 (the code at the failing input): once `boot()` has issued its last
mapping request it is in the closing `while (1) {}` and stays there: every
further step leaves the program point, both tables and the log of operations
as they are. The log never grows beyond the three mapping requests, so none of
the later steps of the boot sequence is performed. -/
theorem boot_spins_after_last_request (env : Env) (n : Nat) :
    (boot env (3 + n) boot_init).1 = BootPc.spin ∧
    boot_step env (boot env (3 + n) boot_init) = boot env (3 + n) boot_init ∧
    boot env (3 + n) boot_init = boot env 3 boot_init ∧
    (boot env (3 + n) boot_init).2.calls.length = 3 := by
  rw [boot_reaches_spin]
  exact ⟨rfl, rfl, rfl, rfl⟩

/-- C8: the lengths of the two seeded regions. `sizeof(trans_table)` is
`0x1000 * 4 = 16384` and `sizeof(page_map)` is `0x8000 * 4 = 131072`; both are
positive, both are unchanged by the conversion to `uint32_t`, and both are
exact multiples of 4096. -/
theorem seed_lengths_are_page_multiples :
    (sizeof_trans_table = 0x1000 * 4 ∧ sizeof_trans_table = 16384) ∧
    (sizeof_page_map = 0x8000 * 4 ∧ sizeof_page_map = 131072) ∧
    (0 < sizeof_trans_table ∧ 0 < sizeof_page_map) ∧
    (sizeof_trans_table < 2 ^ 32 ∧ to_uint32 sizeof_trans_table = sizeof_trans_table) ∧
    (sizeof_page_map < 2 ^ 32 ∧ to_uint32 sizeof_page_map = sizeof_page_map) ∧
    (sizeof_trans_table % 4096 = 0 ∧ sizeof_page_map % 4096 = 0) := by
  decide

/-- C9: the Translation Table invariant holds in every configuration `boot()`
reaches from the zero-initialised globals, after any number of steps (so after
each mapping step and throughout the closing loop): `trans_table` has exactly
`0x1000` entries, every entry is zero or designates a segment inside
`page_map`, and no segment is designated by two slots, whatever the decoding
`seg_of` of an entry and the segment size. -/
theorem boot_preserves_trans_table_inv (seg_of : Nat → Nat) (seg_entries : Nat)
    (env : Env) (n : Nat) :
    (boot env n boot_init).2.trans_table.length = 0x1000 ∧
    TransTableInv seg_of seg_entries (boot env n boot_init).2 := by
  have hinv := boot_init_inv seg_of seg_entries (boot env n boot_init).2
    (boot_tables env n boot_init).1
  exact ⟨hinv.1, hinv⟩

/-- C10: `vm_seed` has no mapping logic. Whatever its arguments and the prior
state, a call leaves `trans_table` and `page_map` as they were; so do
`vm_seed_trans_table`, `vm_seed_page_map`, and `boot()` after any number of
steps. -/
theorem vm_seed_frame (env : Env) (v p length n : Nat) (m : Machine) :
    ((vm_seed v p length m).trans_table = m.trans_table ∧
      (vm_seed v p length m).page_map = m.page_map) ∧
    ((vm_seed_trans_table env m).trans_table = m.trans_table ∧
      (vm_seed_trans_table env m).page_map = m.page_map) ∧
    ((vm_seed_page_map env m).trans_table = m.trans_table ∧
      (vm_seed_page_map env m).page_map = m.page_map) ∧
    ((boot env n m).2.trans_table = m.trans_table ∧
      (boot env n m).2.page_map = m.page_map) :=
  ⟨⟨rfl, rfl⟩, ⟨rfl, rfl⟩, ⟨rfl, rfl⟩, boot_tables env n m⟩

end Clust
